import Mathlib

/-!
Shallow embedding of the response-normalization and job-tracking logic of
`src/app.py` (a Streamlit dashboard for the Pipio avatar-video API), together
with theorems checking the specification's claims about it.

JSON payloads are modelled by an inductive `Json` type mirroring decoded
Python values (`null`/`None`, booleans, numbers, strings, lists, dicts).
Python dicts are modelled as association lists with unique keys and
last-write-wins insertion.  Python truthiness (`if x:`) is modelled by
`truthy`.  Fallible network calls deliver their decoded body as
`Option Json` to the handlers (`none` = the helper returned `None` after
catching a transport/parse fault).
-/

/-- Decoded JSON value, as produced by `response.json()` in `src/app.py`. -/
inductive Json where
  | null : Json
  | bool (b : Bool) : Json
  | num (n : Int) : Json
  | str (s : String) : Json
  | arr (xs : List Json) : Json
  | obj (kvs : List (String × Json)) : Json
deriving Repr

/-- Key lookup in a dict modelled as an association list (`d.get(k)` /
`k in d`). -/
def lookupKey : List (String × Json) → String → Option Json
  | [], _ => none
  | (k, v) :: rest, key => if k = key then some v else lookupKey rest key

/-- Python truthiness of a decoded JSON value (`if x:`): `None`, `False`,
`0`, `""`, `[]`, `{}` are falsy, everything else truthy. -/
def truthy : Json → Bool
  | Json.null => false
  | Json.bool b => b
  | Json.num n => n != 0
  | Json.str s => s ≠ ""
  | Json.arr xs => !xs.isEmpty
  | Json.obj kvs => !kvs.isEmpty

/-- Is the value a dict (`isinstance(x, dict)`)? -/
def isObj : Json → Bool
  | Json.obj _ => true
  | _ => false

/-- Is the value a list (`isinstance(x, list)`)? -/
def isArr : Json → Bool
  | Json.arr _ => true
  | _ => false

/-- `key in d` for a dict value (false on non-dicts). -/
def hasKey (j : Json) (key : String) : Bool :=
  match j with
  | Json.obj kvs => (lookupKey kvs key).isSome
  | _ => false

/-- Python `==` between a decoded JSON value and a string literal
(`current_status == "completed"`, `v["status"] in status_filter`). -/
def jsonEqStr (j : Json) (s : String) : Bool :=
  match j with
  | Json.str t => t = s
  | _ => false

/-- `safe_get` from `src/app.py` (lines 116-122): `None` and non-dicts give
the default, otherwise `dictionary.get(key, default)`. -/
def safe_get (dictionary : Json) (key : String) (default : Json) : Json :=
  match dictionary with
  | Json.obj kvs => (lookupKey kvs key).getD default
  | _ => default

/-- Structural equality of decoded JSON values (Python `==` on keys when
assigning into a dict). -/
def Json.beq : Json → Json → Bool
  | Json.null, Json.null => true
  | Json.bool a, Json.bool b => a == b
  | Json.num a, Json.num b => a == b
  | Json.str a, Json.str b => a == b
  | Json.arr xs, Json.arr ys => beqList xs ys
  | Json.obj xs, Json.obj ys => beqKV xs ys
  | _, _ => false
where
  beqList : List Json → List Json → Bool
    | [], [] => true
    | x :: xs, y :: ys => Json.beq x y && beqList xs ys
    | _, _ => false
  beqKV : List (String × Json) → List (String × Json) → Bool
    | [], [] => true
    | (k1, v1) :: xs, (k2, v2) :: ys => k1 == k2 && Json.beq v1 v2 && beqKV xs ys
    | _, _ => false

/-- `d[k] = v` on a Python dict: overwrite in place if the key is present,
append otherwise. -/
def dictInsert : List (Json × Json) → Json → Json → List (Json × Json)
  | [], k, v => [(k, v)]
  | (k0, v0) :: rest, k, v =>
    if Json.beq k0 k then (k0, v) :: rest else (k0, v0) :: dictInsert rest k v

/-- `d.get(k, default)` on a dict keyed by JSON values
(`avatar_dict.get(avatar_id, {})`). -/
def jdictGet (d : List (Json × Json)) (k : Json) (default : Json) : Json :=
  match d with
  | [] => default
  | (k0, v0) :: rest => if Json.beq k0 k then v0 else jdictGet rest k default

/-- `get_mock_avatars` from `src/app.py` (lines 125-152). -/
def get_mock_avatars : List Json :=
  [Json.obj [("id", Json.str "avatar1"), ("name", Json.str "Business Man"),
     ("previewImageUrl", Json.str "https://placeholder.svg?height=150&width=150&query=Business+Man+Avatar"),
     ("description", Json.str "Professional male avatar in business attire")],
   Json.obj [("id", Json.str "avatar2"), ("name", Json.str "Business Woman"),
     ("previewImageUrl", Json.str "https://placeholder.svg?height=150&width=150&query=Business+Woman+Avatar"),
     ("description", Json.str "Professional female avatar in business attire")],
   Json.obj [("id", Json.str "avatar3"), ("name", Json.str "Casual Man"),
     ("previewImageUrl", Json.str "https://placeholder.svg?height=150&width=150&query=Casual+Man+Avatar"),
     ("description", Json.str "Casual male avatar in everyday clothing")],
   Json.obj [("id", Json.str "avatar4"), ("name", Json.str "Casual Woman"),
     ("previewImageUrl", Json.str "https://placeholder.svg?height=150&width=150&query=Casual+Woman+Avatar"),
     ("description", Json.str "Casual female avatar in everyday clothing")]]

/-- `get_mock_voices` from `src/app.py` (lines 155-193). -/
def get_mock_voices : List Json :=
  [Json.obj [("id", Json.str "voice1"), ("name", Json.str "James"),
     ("gender", Json.str "Male"), ("language", Json.str "English"),
     ("accent", Json.str "American")],
   Json.obj [("id", Json.str "voice2"), ("name", Json.str "Emma"),
     ("gender", Json.str "Female"), ("language", Json.str "English"),
     ("accent", Json.str "British")],
   Json.obj [("id", Json.str "voice3"), ("name", Json.str "Michael"),
     ("gender", Json.str "Male"), ("language", Json.str "English"),
     ("accent", Json.str "Australian")],
   Json.obj [("id", Json.str "voice4"), ("name", Json.str "Sophia"),
     ("gender", Json.str "Female"), ("language", Json.str "English"),
     ("accent", Json.str "American")],
   Json.obj [("id", Json.str "voice5"), ("name", Json.str "Carlos"),
     ("gender", Json.str "Male"), ("language", Json.str "Spanish"),
     ("accent", Json.str "Latin American")]]

/-- Shape-resolution core of `get_avatars` from `src/app.py` (lines 216-243),
applied to the decoded body `raw_response` once the HTTP call succeeded.
`use_mock_data` is the sidebar checkbox read by the fallback branches.
A list is returned as-is; a dict is unwrapped via the first of the keys
`actors`, `data`, `results` that is present (its value returned unchanged);
otherwise the error branch returns the mock list or `[]`.  The result is an
arbitrary `Json` because the unwrap branches perform no type check. -/
def get_avatars (use_mock_data : Bool) (raw_response : Json) : Json :=
  match raw_response with
  | Json.arr xs => Json.arr xs
  | Json.obj kvs =>
    match lookupKey kvs "actors" with
    | some v => v
    | none =>
      match lookupKey kvs "data" with
      | some v => v
      | none =>
        match lookupKey kvs "results" with
        | some v => v
        | none =>
          if use_mock_data then Json.arr get_mock_avatars else Json.arr []
  | _ => if use_mock_data then Json.arr get_mock_avatars else Json.arr []

/-- Shape-resolution core of `get_voices` from `src/app.py` (lines 292-319):
identical to `get_avatars` with wrapper key `voices` and the voice mocks. -/
def get_voices (use_mock_data : Bool) (raw_response : Json) : Json :=
  match raw_response with
  | Json.arr xs => Json.arr xs
  | Json.obj kvs =>
    match lookupKey kvs "voices" with
    | some v => v
    | none =>
      match lookupKey kvs "data" with
      | some v => v
      | none =>
        match lookupKey kvs "results" with
        | some v => v
        | none =>
          if use_mock_data then Json.arr get_mock_voices else Json.arr []
  | _ => if use_mock_data then Json.arr get_mock_voices else Json.arr []

/-- One entry of `avatar_dict` / `voice_dict` construction (`src/app.py`
lines 627-633 and 683-692): skip non-dicts, skip records whose
`safe_get(record, "id")` is falsy, otherwise `d[record_id] = record`. -/
def recordDictStep (idKeyedDict : List (Json × Json)) (record : Json) :
    List (Json × Json) :=
  if isObj record then
    let recordId := safe_get record "id" Json.null
    if truthy recordId then dictInsert idKeyedDict recordId record
    else idKeyedDict
  else idKeyedDict

/-- `avatar_dict` built from the normalized avatar list (`src/app.py`
lines 624-633); `voice_dict` (lines 680-692) uses the same filter and
insertion for its id-keyed dict. -/
def build_record_dict (records : List Json) : List (Json × Json) :=
  records.foldl recordDictStep []

/-- Session Job record as appended by the Generate Video handler
(`src/app.py` lines 867-878).  `created_at` is the formatted timestamp,
passed in opaquely. -/
structure Job where
  id : Json
  avatar_id : Json
  avatar_name : Json
  voice_id : Json
  voice_name : Json
  script : String
  status : Json
  url : Json
  created_at : String
  additional_params : Json
deriving Repr

/-- Generate Video button handler (`src/app.py` lines 845-886), returning the
updated session job list.  `selected_avatar` / `selected_voice` are the
session-state selections (`Json.null` = `None`); `result` is what
`generate_video` returned (`none` = it caught a fault and returned `None`).
A job is appended only when both selections are truthy, the script is
non-empty, and the result is a truthy dict containing an `id` key. -/
def generateHandler (selected_avatar selected_voice : Json) (script : String)
    (avatar_dict voice_dict : List (Json × Json)) (additional_params : Json)
    (now : String) (result : Option Json) (videos : List Job) : List Job :=
  if !truthy selected_avatar || !truthy selected_voice then videos
  else if script = "" then videos
  else
    match result with
    | none => videos
    | some r =>
      match r with
      | Json.obj kvs =>
        if truthy (Json.obj kvs) then
          match lookupKey kvs "id" with
          | some video_id =>
            videos ++
              [{ id := video_id,
                 avatar_id := selected_avatar,
                 avatar_name := safe_get (jdictGet avatar_dict selected_avatar (Json.obj []))
                   "name" (Json.str "Unknown Avatar"),
                 voice_id := selected_voice,
                 voice_name := safe_get (jdictGet voice_dict selected_voice (Json.obj []))
                   "name" (Json.str "Unknown Voice"),
                 script := script,
                 status := Json.str "processing",
                 url := Json.null,
                 created_at := now,
                 additional_params := additional_params }]
          | none => videos
        else videos
      | _ => videos

/-- The script text area (`src/app.py` lines 818-821) is created with
`max_chars=5000`: the widget refuses input longer than 5000 characters, so
the Generate Video handler is only ever reached with such a script.  The
pipeline composes that widget bound with the handler. -/
def generatePipeline (selected_avatar selected_voice : Json) (script : String)
    (avatar_dict voice_dict : List (Json × Json)) (additional_params : Json)
    (now : String) (result : Option Json) (videos : List Job) : List Job :=
  if script.length ≤ 5000 then
    generateHandler selected_avatar selected_voice script avatar_dict voice_dict
      additional_params now result videos
  else videos

/-- Check Status handler's update of one Job record (`src/app.py` lines
936-951).  `status_data` is what `check_video_status` returned (`none` = it
caught a fault and returned `None`).  When it is a truthy dict the status
field is overwritten with `safe_get(status_data, "status", "unknown")`
verbatim, and only when that value equals the string `completed` is the url
field overwritten with `safe_get(status_data, "videoUrl")`. -/
def pollUpdate (status_data : Option Json) (j : Job) : Job :=
  match status_data with
  | none => j
  | some sd =>
    if truthy sd && isObj sd then
      if jsonEqStr (safe_get sd "status" (Json.str "unknown")) "completed" then
        { j with status := safe_get sd "status" (Json.str "unknown"),
                 url := safe_get sd "videoUrl" Json.null }
      else { j with status := safe_get sd "status" (Json.str "unknown") }
    else j

/-- A sequence of Check Status polls applied to one Job record, oldest
response first. -/
def pollFold (responses : List (Option Json)) (j : Job) : Job :=
  responses.foldl (fun j r => pollUpdate r j) j

/-- Status filter on the job list (`src/app.py` lines 903-912): an empty
multiselect shows everything, otherwise only jobs whose status is `in` the
selected strings. -/
def filteredVideos (status_filter : List String) (videos : List Job) :
    List Job :=
  if status_filter.isEmpty then videos
  else videos.filter (fun v => status_filter.any (fun s => jsonEqStr v.status s))

/-- Remove from List handler (`src/app.py` lines 992-1000): the button is
rendered for the `i`-th entry of `filtered_videos`, but the handler executes
`st.session_state.videos.pop(i)` — it erases the `i`-th entry of the FULL
job list, not of the filtered one. -/
def removeHandler (videos : List Job) (i : Nat) : List Job :=
  videos.eraseIdx i

/-- C7: Poll is idempotent: applying the Check Status update twice with the
same upstream response yields the same Job record as applying it once. -/
theorem poll_update_idempotent (r : Option Json) (j : Job) :
    pollUpdate r (pollUpdate r j) = pollUpdate r j := by
  cases r with
  | none => rfl
  | some sd =>
    simp only [pollUpdate]
    by_cases h1 : (truthy sd && isObj sd) = true
    · by_cases h2 :
        jsonEqStr (safe_get sd "status" (Json.str "unknown")) "completed" = true
      · simp [h1, h2]
      · simp [h1, h2]
    · simp [h1]

/-- C2 counterexample: the `{response: {data: [...]}}` shape of spec §4.1 is
not unwrapped by the code — it falls into the missing-key branch and yields
`[]`, while the bare-array shape of the same records yields the records, so
normalization is not shape-independent across the §4.1 list. -/
theorem get_avatars_response_shape_differs :
    get_avatars false
        (Json.obj [("response",
          Json.obj [("data",
            Json.arr [Json.obj [("id", Json.str "a1"), ("name", Json.str "Ann")]])])])
      ≠ get_avatars false
        (Json.arr [Json.obj [("id", Json.str "a1"), ("name", Json.str "Ann")]]) := by
  intro h
  have h' : Json.arr [] =
      Json.arr [Json.obj [("id", Json.str "a1"), ("name", Json.str "Ann")]] := h
  injection h' with h2
  cases h2

/-- C2 amended: for the wrapper shapes the code actually handles — bare
array, `{actors: [...]}` (avatars) / `{voices: [...]}` (voices),
`{data: [...]}`, `{results: [...]}` — normalization returns the same
sequence of records regardless of shape. -/
theorem normalize_handled_shapes_agree (m : Bool) (xs : List Json) :
    get_avatars m (Json.obj [("actors", Json.arr xs)]) = get_avatars m (Json.arr xs) ∧
    get_avatars m (Json.obj [("data", Json.arr xs)]) = get_avatars m (Json.arr xs) ∧
    get_avatars m (Json.obj [("results", Json.arr xs)]) = get_avatars m (Json.arr xs) ∧
    get_voices m (Json.obj [("voices", Json.arr xs)]) = get_voices m (Json.arr xs) ∧
    get_voices m (Json.obj [("data", Json.arr xs)]) = get_voices m (Json.arr xs) ∧
    get_voices m (Json.obj [("results", Json.arr xs)]) = get_voices m (Json.arr xs) :=
  ⟨rfl, rfl, rfl, rfl, rfl, rfl⟩

/-- C9 counterexample: an empty-array payload is returned as-is by the
early list branch even when fallback mode is enabled — the mock sequence
(which is non-empty) is NOT substituted. -/
theorem empty_array_ignores_mock_mode :
    get_avatars true (Json.arr []) = Json.arr [] ∧
    get_mock_avatars ≠ [] := by
  refine ⟨rfl, ?_⟩
  intro h
  cases h

/-- C9 amended: the empty-array payload normalizes to the empty sequence
regardless of fallback mode, for avatars and voices alike; the mock sequence
is substituted only when the payload is a dict with none of the recognized
wrapper keys (or a non-list, non-dict value), as the `{}` payload shows. -/
theorem empty_array_always_empty (m : Bool) :
    get_avatars m (Json.arr []) = Json.arr [] ∧
    get_voices m (Json.arr []) = Json.arr [] ∧
    get_avatars true (Json.obj []) = Json.arr get_mock_avatars ∧
    get_avatars false (Json.obj []) = Json.arr [] := by
  cases m
  · exact ⟨rfl, rfl, rfl, rfl⟩
  · exact ⟨rfl, rfl, rfl, rfl⟩

/-- C10: an object payload with an `actors` (resp. `voices`), `data` or
`results` key — in that precedence order — has the value under the first
matching key returned unchanged, with no check that it is an array of
records; in particular `{"data": "oops"}` normalizes to the non-array string
`"oops"`. -/
theorem wrapper_value_returned_unchecked (m : Bool)
    (kvs : List (String × Json)) (v : Json) :
    (lookupKey kvs "actors" = some v → get_avatars m (Json.obj kvs) = v) ∧
    (lookupKey kvs "actors" = none → lookupKey kvs "data" = some v →
      get_avatars m (Json.obj kvs) = v) ∧
    (lookupKey kvs "actors" = none → lookupKey kvs "data" = none →
      lookupKey kvs "results" = some v → get_avatars m (Json.obj kvs) = v) ∧
    (lookupKey kvs "voices" = some v → get_voices m (Json.obj kvs) = v) ∧
    (lookupKey kvs "voices" = none → lookupKey kvs "data" = some v →
      get_voices m (Json.obj kvs) = v) ∧
    (lookupKey kvs "voices" = none → lookupKey kvs "data" = none →
      lookupKey kvs "results" = some v → get_voices m (Json.obj kvs) = v) ∧
    (get_avatars m (Json.obj [("data", Json.str "oops")]) = Json.str "oops" ∧
      isArr (Json.str "oops") = false) := by
  refine ⟨?_, ?_, ?_, ?_, ?_, ?_, ?_, rfl⟩
  · intro h; simp [get_avatars, h]
  · intro h1 h2; simp [get_avatars, h1, h2]
  · intro h1 h2 h3; simp [get_avatars, h1, h2, h3]
  · intro h; simp [get_voices, h]
  · intro h1 h2; simp [get_voices, h1, h2]
  · intro h1 h2 h3; simp [get_voices, h1, h2, h3]
  · cases m
    · rfl
    · rfl

/-- C10 witness: the theorem applied at the concrete payload
`{"actors": "zz"}`, whose wrapper value is returned unchanged. -/
theorem wrapper_value_returned_unchecked_witness :
    get_avatars false (Json.obj [("actors", Json.str "zz")]) = Json.str "zz" :=
  (wrapper_value_returned_unchecked false [("actors", Json.str "zz")]
    (Json.str "zz")).1 rfl

/-- An entry of the id-keyed catalog is a dict whose `id` field is truthy. -/
def validEntry (v : Json) : Prop :=
  isObj v = true ∧ truthy (safe_get v "id" Json.null) = true

theorem dictInsert_forall {P : Json × Json → Prop} (d : List (Json × Json))
    (k v : Json) (hd : ∀ kv ∈ d, P kv) (hv : ∀ k0, P (k0, v)) :
    ∀ kv ∈ dictInsert d k v, P kv := by
  induction d with
  | nil =>
    intro kv hkv
    simp only [dictInsert, List.mem_singleton] at hkv
    subst hkv
    exact hv k
  | cons hd0 tl ih =>
    intro kv hkv
    obtain ⟨k0, v0⟩ := hd0
    simp only [dictInsert] at hkv
    by_cases hk : Json.beq k0 k = true
    · rw [if_pos hk] at hkv
      rcases List.mem_cons.mp hkv with h | h
      · subst h; exact hv k0
      · exact hd _ (List.mem_cons_of_mem _ h)
    · rw [if_neg hk] at hkv
      rcases List.mem_cons.mp hkv with h | h
      · subst h; exact hd _ (List.mem_cons_self _ _)
      · exact ih (fun kv hkv => hd kv (List.mem_cons_of_mem _ hkv)) kv h

theorem recordDictStep_forall (d : List (Json × Json)) (r : Json)
    (hd : ∀ kv ∈ d, validEntry kv.2) :
    ∀ kv ∈ recordDictStep d r, validEntry kv.2 := by
  intro kv hkv
  simp only [recordDictStep] at hkv
  by_cases ho : isObj r = true
  · rw [if_pos ho] at hkv
    by_cases ht : truthy (safe_get r "id" Json.null) = true
    · rw [if_pos ht] at hkv
      exact dictInsert_forall d _ r hd (fun k0 => ⟨ho, ht⟩) kv hkv
    · rw [if_neg ht] at hkv
      exact hd kv hkv
  · rw [if_neg ho] at hkv
    exact hd kv hkv

theorem build_record_dict_inv (records : List Json) (acc : List (Json × Json))
    (hacc : ∀ kv ∈ acc, validEntry kv.2) :
    ∀ kv ∈ records.foldl recordDictStep acc, validEntry kv.2 := by
  induction records generalizing acc with
  | nil => exact hacc
  | cons r rest ih =>
    exact ih (recordDictStep acc r) (recordDictStep_forall acc r hacc)

theorem truthy_id_gives_hasKey (v : Json) (ho : isObj v = true)
    (ht : truthy (safe_get v "id" Json.null) = true) : hasKey v "id" = true := by
  cases v with
  | obj kvs =>
    simp only [safe_get] at ht
    simp only [hasKey]
    cases hl : lookupKey kvs "id" with
    | none => rw [hl] at ht; cases ht
    | some w => rfl
  | null => cases ho
  | bool b => cases ho
  | num n => cases ho
  | str s => cases ho
  | arr xs => cases ho

/-- C5: every entry of the id-keyed avatar/voice catalog built from a
normalized record list is a dict that has an `id` key — non-dicts and
records with a missing (or falsy) `id` never survive into the catalog. -/
theorem record_dict_entries_have_id (records : List Json) (kv : Json × Json)
    (h : kv ∈ build_record_dict records) :
    isObj kv.2 = true ∧ hasKey kv.2 "id" = true := by
  have hv := build_record_dict_inv records [] (by intro kv hkv; cases hkv) kv h
  exact ⟨hv.1, truthy_id_gives_hasKey kv.2 hv.1 hv.2⟩

/-- C5 witness: the theorem applied to a concrete one-record input. -/
theorem record_dict_entries_have_id_witness :
    isObj (Json.obj [("id", Json.str "a1")]) = true ∧
    hasKey (Json.obj [("id", Json.str "a1")]) "id" = true :=
  record_dict_entries_have_id [Json.obj [("id", Json.str "a1")]]
    (Json.str "a1", Json.obj [("id", Json.str "a1")])
    (List.Mem.head _)

/-- C6: a generation attempt with an empty script is rejected by the
handler's script check, and one with a script over 5000 characters never
reaches the handler (the text area is created with `max_chars=5000`); in
both cases the session job list is unchanged, so no Job is created. -/
theorem no_job_for_invalid_script (sa sv : Json) (script : String)
    (ad vd : List (Json × Json)) (params : Json) (now : String)
    (result : Option Json) (videos : List Job)
    (h : script = "" ∨ 5000 < script.length) :
    generatePipeline sa sv script ad vd params now result videos = videos := by
  rcases h with h | h
  · subst h
    simp only [generatePipeline, generateHandler]
    rw [if_pos (by simp)]
    by_cases hsel : (!truthy sa || !truthy sv) = true
    · rw [if_pos hsel]
    · rw [if_neg hsel]
      simp
  · simp only [generatePipeline]
    rw [if_neg (by omega)]

/-- C4: when the selections and script pass validation and the upstream
response is a dict containing an `id`, exactly one Job record is appended to
the session job list, carrying that id, status `processing` and a null url;
and whatever the upstream response, every record in the post-handler list is
either an old record or one created with status `processing` and null url. -/
theorem submit_creates_processing_job (sa sv : Json) (script : String)
    (ad vd : List (Json × Json)) (params : Json) (now : String)
    (kvs : List (String × Json)) (vid : Json) (videos : List Job)
    (hsa : truthy sa = true) (hsv : truthy sv = true) (hs : script ≠ "")
    (hid : lookupKey kvs "id" = some vid) :
    generateHandler sa sv script ad vd params now (some (Json.obj kvs)) videos =
      videos ++
        [{ id := vid, avatar_id := sa,
           avatar_name := safe_get (jdictGet ad sa (Json.obj [])) "name"
             (Json.str "Unknown Avatar"),
           voice_id := sv,
           voice_name := safe_get (jdictGet vd sv (Json.obj [])) "name"
             (Json.str "Unknown Voice"),
           script := script, status := Json.str "processing", url := Json.null,
           created_at := now, additional_params := params }] ∧
    ∀ (result : Option Json) (j : Job),
      j ∈ generateHandler sa sv script ad vd params now result videos →
      j ∈ videos ∨ (j.status = Json.str "processing" ∧ j.url = Json.null) := by
  have ht : truthy (Json.obj kvs) = true := by
    cases kvs with
    | nil => cases hid
    | cons hd tl => rfl
  constructor
  · simp only [generateHandler, hsa, hsv, Bool.not_true, Bool.or_self,
      Bool.false_or, if_neg hs]
    simp [ht, hid]
  · intro result j hj
    simp only [generateHandler] at hj
    repeat' split at hj
    all_goals try exact Or.inl hj
    all_goals
      simp only [List.mem_append, List.mem_singleton] at hj
      rcases hj with h | h
      · exact Or.inl h
      · subst h
        exact Or.inr ⟨rfl, rfl⟩

/-- C4 witness: the theorem applied at the example-scenario input
(`{"id": "job42"}` from the upstream, empty starting job list). -/
theorem submit_creates_processing_job_witness :
    generateHandler (Json.str "a1") (Json.str "v1") "Hello world" [] []
        (Json.obj [("format", Json.str "mp4")]) "t0"
        (some (Json.obj [("id", Json.str "job42")])) [] =
      [] ++
        [{ id := Json.str "job42", avatar_id := Json.str "a1",
           avatar_name := Json.str "Unknown Avatar", voice_id := Json.str "v1",
           voice_name := Json.str "Unknown Voice", script := "Hello world",
           status := Json.str "processing", url := Json.null, created_at := "t0",
           additional_params := Json.obj [("format", Json.str "mp4")] }] :=
  (submit_creates_processing_job (Json.str "a1") (Json.str "v1") "Hello world"
    [] [] (Json.obj [("format", Json.str "mp4")]) "t0"
    [("id", Json.str "job42")] (Json.str "job42") []
    rfl rfl (by decide) rfl).1

/-- C6 witness: the theorem applied with the empty script. -/
theorem no_job_for_invalid_script_witness :
    generatePipeline (Json.str "a1") (Json.str "v1") "" [] []
      (Json.obj []) "t0" (some (Json.obj [("id", Json.str "job42")])) [] = [] :=
  no_job_for_invalid_script (Json.str "a1") (Json.str "v1") "" [] []
    (Json.obj []) "t0" (some (Json.obj [("id", Json.str "job42")])) []
    (Or.inl rfl)

/-- A freshly created Job as the Generate Video handler appends it
(status `processing`, url `null`), used as the start state for the poll
theorems about C1. -/
def c1job : Job :=
  { id := Json.str "job42", avatar_id := Json.str "a1",
    avatar_name := Json.str "Ann", voice_id := Json.str "v1",
    voice_name := Json.str "James", script := "Hello world",
    status := Json.str "processing", url := Json.null, created_at := "t0",
    additional_params := Json.obj [("format", Json.str "mp4")] }

/-- C1 counterexample: starting from a freshly created job, polling
`{"status":"completed","videoUrl":"https://x/y.mp4"}` and then
`{"status":"processing"}` leaves `status = "processing"` with
`url = "https://x/y.mp4"` still set — the url is non-null while the status
is not `completed`, so the claimed iff invariant fails. -/
theorem poll_url_iff_completed_fails :
    ¬ (((pollFold
          [some (Json.obj [("status", Json.str "completed"),
             ("videoUrl", Json.str "https://x/y.mp4")]),
           some (Json.obj [("status", Json.str "processing")])] c1job).url ≠
            Json.null) ↔
        (pollFold
          [some (Json.obj [("status", Json.str "completed"),
             ("videoUrl", Json.str "https://x/y.mp4")]),
           some (Json.obj [("status", Json.str "processing")])] c1job).status =
            Json.str "completed") := by
  intro h
  have hs : Json.str "processing" = Json.str "completed" :=
    h.mp (fun hh => Json.noConfusion hh)
  simp at hs

theorem pollUpdate_url_changed (r : Option Json) (j : Job)
    (h : (pollUpdate r j).url ≠ j.url) :
    ∃ sd, r = some sd ∧
      jsonEqStr (safe_get sd "status" (Json.str "unknown")) "completed" = true := by
  cases r with
  | none => exact absurd rfl h
  | some sd =>
    refine ⟨sd, rfl, ?_⟩
    by_contra hc
    apply h
    simp only [pollUpdate]
    split_ifs with h1
    · rfl
    · rfl

/-- C1 amended: half of the claimed invariant holds: a Job created with a
null url keeps a null url unless some poll response in the sequence carried
`status = "completed"`.  (The iff itself fails: a completed poll may store a
null `videoUrl`, and a later non-completed poll overwrites the status
without clearing the url.) -/
theorem poll_url_only_from_completed (rs : List (Option Json)) (j : Job)
    (h0 : j.url = Json.null) (h : (pollFold rs j).url ≠ Json.null) :
    ∃ sd, some sd ∈ rs ∧
      jsonEqStr (safe_get sd "status" (Json.str "unknown")) "completed" = true := by
  induction rs generalizing j with
  | nil => exact absurd h0 h
  | cons r rest ih =>
    by_cases hmid : (pollUpdate r j).url = Json.null
    · obtain ⟨sd, hsd, hc⟩ := ih (pollUpdate r j) hmid h
      exact ⟨sd, List.mem_cons_of_mem _ hsd, hc⟩
    · have hch : (pollUpdate r j).url ≠ j.url := by rw [h0]; exact hmid
      obtain ⟨sd, rfl, hc⟩ := pollUpdate_url_changed r j hch
      exact ⟨sd, List.mem_cons_self _ _, hc⟩

/-- C1 witness: the amended theorem applied to the created job and a single
completed poll that does set the url. -/
theorem poll_url_only_from_completed_witness :
    ∃ sd,
      some sd ∈ [some (Json.obj [("status", Json.str "completed"),
        ("videoUrl", Json.str "https://x/y.mp4")])] ∧
      jsonEqStr (safe_get sd "status" (Json.str "unknown")) "completed" = true :=
  poll_url_only_from_completed
    [some (Json.obj [("status", Json.str "completed"),
      ("videoUrl", Json.str "https://x/y.mp4")])]
    c1job rfl (fun hh => Json.noConfusion hh)

/-- A freshly created Job used for the C3 poll theorems. -/
def c3job : Job :=
  { id := Json.str "job42", avatar_id := Json.str "a1",
    avatar_name := Json.str "Ann", voice_id := Json.str "v1",
    voice_name := Json.str "James", script := "Hello world",
    status := Json.str "processing", url := Json.null, created_at := "t0",
    additional_params := Json.obj [] }

/-- C3 counterexample: polling a fresh job against a response
`{"status":"weird"}` stores the status `"weird"` verbatim — not
`"unknown"` as claimed (the url does stay null). -/
theorem poll_weird_not_stored_as_unknown :
    (pollUpdate (some (Json.obj [("status", Json.str "weird")])) c3job).status =
      Json.str "weird" ∧
    (pollUpdate (some (Json.obj [("status", Json.str "weird")])) c3job).status ≠
      Json.str "unknown" ∧
    (pollUpdate (some (Json.obj [("status", Json.str "weird")])) c3job).url =
      Json.null := by
  refine ⟨rfl, ?_, rfl⟩
  intro h
  have hs : Json.str "weird" = Json.str "unknown" := h
  simp at hs

/-- C3 amended: a poll against a non-empty dict response stores the value of
its `status` field verbatim into the Job, whatever string it is; the string
`"unknown"` appears only as the default when the response has no `status`
key; and any poll whose stored status is not `"completed"` leaves the url
unchanged. -/
theorem poll_status_stored_verbatim (j : Job) (kvs : List (String × Json))
    (hne : kvs ≠ []) :
    (pollUpdate (some (Json.obj kvs)) j).status =
      (lookupKey kvs "status").getD (Json.str "unknown") ∧
    (lookupKey kvs "status" = none →
      (pollUpdate (some (Json.obj kvs)) j).status = Json.str "unknown") ∧
    (jsonEqStr ((lookupKey kvs "status").getD (Json.str "unknown"))
        "completed" = false →
      (pollUpdate (some (Json.obj kvs)) j).url = j.url) := by
  have ht : (truthy (Json.obj kvs) && isObj (Json.obj kvs)) = true := by
    cases kvs with
    | nil => exact absurd rfl hne
    | cons a b => rfl
  have h1 : (pollUpdate (some (Json.obj kvs)) j).status =
      (lookupKey kvs "status").getD (Json.str "unknown") := by
    simp only [pollUpdate]
    rw [if_pos ht]
    split
    · rfl
    · rfl
  refine ⟨h1, ?_, ?_⟩
  · intro h
    rw [h1, h]
    rfl
  · intro h
    have hcond : jsonEqStr (safe_get (Json.obj kvs) "status" (Json.str "unknown"))
        "completed" = false := h
    simp only [pollUpdate]
    rw [if_pos ht, if_neg (by simp [hcond])]

/-- C3 witness: the amended theorem applied at the `{"status":"weird"}`
response of example scenario 5. -/
theorem poll_status_stored_verbatim_witness :
    (pollUpdate (some (Json.obj [("status", Json.str "weird")])) c3job).status =
      (lookupKey [("status", Json.str "weird")] "status").getD
        (Json.str "unknown") :=
  (poll_status_stored_verbatim c3job [("status", Json.str "weird")]
    (by simp)).1

/-- A processing Job hidden by the `completed` status filter (C8). -/
def c8procJob : Job :=
  { id := Json.str "j1", avatar_id := Json.str "a1",
    avatar_name := Json.str "Ann", voice_id := Json.str "v1",
    voice_name := Json.str "James", script := "s1",
    status := Json.str "processing", url := Json.null, created_at := "t1",
    additional_params := Json.obj [] }

/-- A completed Job displayed by the `completed` status filter (C8). -/
def c8doneJob : Job :=
  { id := Json.str "j2", avatar_id := Json.str "a2",
    avatar_name := Json.str "Bob", voice_id := Json.str "v2",
    voice_name := Json.str "Emma", script := "s2",
    status := Json.str "completed", url := Json.str "https://x/y.mp4",
    created_at := "t2", additional_params := Json.obj [] }

/-- C8: with job list `[j1 (processing), j2 (completed)]` and the status
filter `["completed"]`, the only displayed job is `j2` at display index 0 —
but clicking its Remove button executes `videos.pop(0)` on the FULL list,
which deletes `j1` and keeps `j2`: the handler removes a different record
than the one displayed, contradicting the claim. -/
theorem remove_with_filter_deletes_wrong_job :
    filteredVideos ["completed"] [c8procJob, c8doneJob] = [c8doneJob] ∧
    removeHandler [c8procJob, c8doneJob] 0 = [c8doneJob] ∧
    c8procJob ≠ c8doneJob := by
  refine ⟨rfl, rfl, ?_⟩
  intro h
  have hid : Json.str "j1" = Json.str "j2" := congrArg Job.id h
  simp at hid
